import Mathlib

/-!
# Binance futures bot: signal-and-position-action evaluators

Shallow embedding of the decision logic of the two scripts
`binance_list_open.js` (entry scanner) and `binance_support_close.js`
(position manager).  Numeric values are modelled as rationals; the
side-effecting I/O (exchange fetches, order placement, notifications) is
outside the embedded decision functions.
-/

namespace BinanceFutures

/-! ## Entry scanner (`binance_list_open.js`) -/

/-- The three possible outcomes of the entry evaluation for one symbol. -/
inductive EntryDecision where
  | OpenLong
  | OpenShort
  | NoAction
deriving DecidableEq, Repr

/-- Per-symbol market snapshot used by the entry rule: the latest RSI value
(`rsiResult.rsi`) and the latest market price (`price`). -/
structure SignalSnapshot where
  rsi : ℚ
  lastPrice : ℚ
deriving DecidableEq, Repr

/-- `const MAX_ACTIVE_POSITIONS = 1` in `binance_list_open.js`. -/
def MAX_ACTIVE_POSITIONS : ℕ := 1

/-- `const SELL_RSI_THRESHOLD = 80`. -/
def SELL_RSI_THRESHOLD : ℚ := 80

/-- `const BUY_RSI_THRESHOLD = 10`. -/
def BUY_RSI_THRESHOLD : ℚ := 10

/-- `const SHORT = true`. -/
def SHORT : Bool := true

/-- `const LONG = false`. -/
def LONG : Bool := false

/-- `const TESTING_MODE = false`. -/
def TESTING_MODE : Bool := false

/-- The literal `1` in the `price < 1` filters of the main loop. -/
def PRICE_CEILING : ℚ := 1

/-- The guard at the top of `openPosition` (`binance_list_open.js`,
lines 295-300): when the number of open positions has reached
`MAX_ACTIVE_POSITIONS`, the function returns without placing an order,
which the decision model records as `NoAction`.  (The subsequent
insufficient-balance early return is an external balance fetch, outside
the pure decision function.) -/
def openPositionGuard (activePositionCount maxPositions : ℕ)
    (intended : EntryDecision) : EntryDecision :=
  if maxPositions ≤ activePositionCount then EntryDecision.NoAction else intended

/-- The entry decision for one symbol: the two branch conditions of the
main loop (`binance_list_open.js`, lines 437-443)

  `rsiResult.rsi >= SELL_RSI_THRESHOLD && !TESTING_MODE && price < 1 && SHORT`
  `rsiResult.rsi <= BUY_RSI_THRESHOLD && rsiResult.rsi > 0 && !TESTING_MODE && price < 1 && LONG`

composed with the max-positions guard of `openPosition`.  The constants
(`1` as price ceiling, the two RSI thresholds, the `SHORT`/`LONG` enable
flags and the position cap) become parameters. -/
def evaluateEntry (signal : SignalSnapshot) (activePositionCount maxPositions : ℕ)
    (priceCeiling sellThreshold buyThreshold : ℚ)
    (shortEnabled longEnabled : Bool) : EntryDecision :=
  if sellThreshold ≤ signal.rsi ∧ TESTING_MODE = false ∧
      signal.lastPrice < priceCeiling ∧ shortEnabled = true then
    openPositionGuard activePositionCount maxPositions EntryDecision.OpenShort
  else if signal.rsi ≤ buyThreshold ∧ 0 < signal.rsi ∧ TESTING_MODE = false ∧
      signal.lastPrice < priceCeiling ∧ longEnabled = true then
    openPositionGuard activePositionCount maxPositions EntryDecision.OpenLong
  else EntryDecision.NoAction

/-! ## Position manager (`binance_support_close.js`) -/

/-- The two possible outcomes of the exit evaluation for one position. -/
inductive ExitDecision where
  | ClosePosition
  | NoAction
deriving DecidableEq, Repr

/-- The fields of a `futuresPositionRisk()` entry that the exit rule reads:
`unRealizedProfit` and `isolatedWallet` (both parsed with `Number`). -/
structure PositionSnapshot where
  unRealizedProfit : ℚ
  isolatedWallet : ℚ
deriving DecidableEq, Repr

/-- `const profit = 0.03` in `binance_support_close.js`. -/
def profit : ℚ := 3 / 100

/-- `const supportPerPosition = 0.10`. -/
def supportPerPosition : ℚ := 1 / 10

/-- The exit decision of the monitoring loop (`binance_support_close.js`,
lines 249-255):

  `const calculatedProfit = Number(position.isolatedWallet) * profit;`
  `if (unRealizedProfit >= calculatedProfit) closePosition(position)`

with the profit-ratio constant as a parameter. -/
def evaluateExit (position : PositionSnapshot) (profitRatio : ℚ) : ExitDecision :=
  let calculatedProfit := position.isolatedWallet * profitRatio
  if calculatedProfit ≤ position.unRealizedProfit then ExitDecision.ClosePosition
  else ExitDecision.NoAction

/-- The directional side of an open futures position (`positionSide`). -/
inductive PositionSide where
  | LONG
  | SHORT
deriving DecidableEq, Repr

/-- The funding-direction check printed by the monitoring loop
(`binance_support_close.js`, lines 239-244):

  `(position.positionSide === 'LONG' && fundingRate.fundingRate < 0) ||`
  `(position.positionSide === 'SHORT' && fundingRate.fundingRate > 0)` -/
def isFundingFavorable (positionSide : PositionSide) (fundingRate : ℚ) : Bool :=
  decide ((positionSide = PositionSide.LONG ∧ fundingRate < 0) ∨
    (positionSide = PositionSide.SHORT ∧ 0 < fundingRate))

/-- The side of a market order. -/
inductive OrderSide where
  | BUY
  | SELL
deriving DecidableEq, Repr

/-- A position record as `closePosition` receives it: each field is
`none` when absent.  (The JS falsy test on the raw fields is modelled as
presence of the parsed field.) -/
structure RawPosition where
  symbol : Option String
  positionAmt : Option ℚ
  positionSide : Option PositionSide
deriving DecidableEq, Repr

/-- The market order `closePosition` submits via `futuresMarketBuy` /
`futuresMarketSell`. -/
structure CloseOrder where
  symbol : String
  side : OrderSide
  quantity : ℚ
  positionSide : PositionSide
deriving DecidableEq, Repr

/-- `closePosition` (`binance_support_close.js`, lines 274-312): throws
`Invalid position data` when `symbol`, `positionAmt` or `positionSide` is
absent; computes `quantity = Math.abs(parseFloat(position.positionAmt))`
and throws `Position quantity is zero` when it is `0`; otherwise submits a
market order on `oppositeSide = positionSide === 'LONG' ? 'SELL' : 'BUY'`
for `quantity`.  The market-price fetch and the notification are external
I/O and do not affect the produced order. -/
def closePosition (position : RawPosition) : Except String CloseOrder :=
  match position.symbol, position.positionAmt, position.positionSide with
  | some symbol, some amt, some side =>
      let quantity := |amt|
      if quantity = 0 then Except.error "Position quantity is zero"
      else
        let oppositeSide :=
          if side = PositionSide.LONG then OrderSide.SELL else OrderSide.BUY
        Except.ok { symbol := symbol, side := oppositeSide,
                    quantity := quantity, positionSide := side }
  | _, _, _ => Except.error "Invalid position data"

/-- The sizing and gating logic of `addMarginToPosition`
(`binance_support_close.js`, lines 336-359): a position whose
`isolatedWallet` is `0` is rejected as not isolated; otherwise
`amountForSupport = isolatedWallet * supportPerPosition` is proposed,
rejected when the available balance is below it.  The support ratio and
the fetched balance become parameters. -/
def addMarginToPosition (isolatedWallet usdtBalance supportRatio : ℚ) :
    Except String ℚ :=
  if isolatedWallet = 0 then
    Except.error "Position is not in isolated margin mode"
  else
    let amountForSupport := isolatedWallet * supportRatio
    if usdtBalance < amountForSupport then
      Except.error "Insufficient USDT balance in futures wallet"
    else Except.ok amountForSupport

/-! ## Unfolding lemmas -/

/-- `evaluateExit` written without the intermediate `calculatedProfit`. -/
lemma evaluateExit_mk (u m r : ℚ) :
    evaluateExit { unRealizedProfit := u, isolatedWallet := m } r =
      if m * r ≤ u then ExitDecision.ClosePosition else ExitDecision.NoAction := rfl

/-- `closePosition` on a record with all three fields present. -/
lemma closePosition_some (symbol : String) (amt : ℚ) (side : PositionSide) :
    closePosition { symbol := some symbol, positionAmt := some amt,
                    positionSide := some side } =
      if |amt| = 0 then Except.error "Position quantity is zero"
      else Except.ok { symbol := symbol,
                       side := if side = PositionSide.LONG then OrderSide.SELL
                               else OrderSide.BUY,
                       quantity := |amt|, positionSide := side } := rfl

/-- `addMarginToPosition` written without the intermediate `amountForSupport`. -/
lemma addMarginToPosition_def (m b r : ℚ) :
    addMarginToPosition m b r =
      if m = 0 then Except.error "Position is not in isolated margin mode"
      else if b < m * r then Except.error "Insufficient USDT balance in futures wallet"
      else Except.ok (m * r) := rfl

/-! ## Entry evaluator theorems -/

/-- C1 counterexample: at `rsi = buyThreshold` (here both `10`), with
`0 < rsi`, `lastPrice < priceCeiling`, both enable flags on, zero active
positions out of a cap of one, and the short rule not satisfied, the
entry evaluation returns `OpenLong`, not `NoAction`: the long rule of the
code compares with `rsi <= BUY_RSI_THRESHOLD`, not strictly. -/
theorem C1_counterexample :
    evaluateEntry { rsi := 10, lastPrice := 1/2 } 0 1 1 80 10 true true =
        EntryDecision.OpenLong ∧
      evaluateEntry { rsi := 10, lastPrice := 1/2 } 0 1 1 80 10 true true ≠
        EntryDecision.NoAction := by
  constructor
  · norm_num [evaluateEntry, openPositionGuard, TESTING_MODE]
  · norm_num [evaluateEntry, openPositionGuard, TESTING_MODE]
    exact fun hc => EntryDecision.noConfusion hc

/-- C1 (amended): when `signal.rsi` equals `buyThreshold` exactly (with
`0 < rsi`, `lastPrice < priceCeiling`, `longEnabled` true,
`activePositionCount < maxPositions`, and the short rule of step 2 not
satisfied), the result is `OpenLong`, because the code's long rule uses
`rsi <= buyThreshold` (non-strict). -/
theorem C1_rsi_eq_buyThreshold_opens_long
    (signal : SignalSnapshot) (activePositionCount maxPositions : ℕ)
    (priceCeiling sellThreshold buyThreshold : ℚ) (shortEnabled : Bool)
    (hrsi : signal.rsi = buyThreshold) (hpos : 0 < signal.rsi)
    (hprice : signal.lastPrice < priceCeiling)
    (hcount : activePositionCount < maxPositions)
    (hshort : ¬ (sellThreshold ≤ signal.rsi ∧ TESTING_MODE = false ∧
      signal.lastPrice < priceCeiling ∧ shortEnabled = true)) :
    evaluateEntry signal activePositionCount maxPositions priceCeiling
        sellThreshold buyThreshold shortEnabled true = EntryDecision.OpenLong := by
  unfold evaluateEntry openPositionGuard
  rw [if_neg hshort, if_pos ⟨le_of_eq hrsi, hpos, rfl, hprice, rfl⟩,
    if_neg (Nat.not_le.mpr hcount)]

/-- C1 witness: the amended statement at `rsi = buyThreshold = 10`,
`lastPrice = 1/2`, ceiling `1`, thresholds `80`/`10`, cap `1`. -/
theorem C1_witness :
    evaluateEntry { rsi := 10, lastPrice := 1/2 } 0 1 1 80 10 true true =
      EntryDecision.OpenLong :=
  C1_rsi_eq_buyThreshold_opens_long { rsi := 10, lastPrice := 1/2 } 0 1 1 80 10
    true rfl (by norm_num) (by norm_num) (by norm_num)
    (by norm_num [TESTING_MODE])

/-- C3: whenever `activePositionCount >= maxPositions`, the entry
evaluation returns `NoAction`, regardless of the RSI value, the last
price, or the enabled flags. -/
theorem C3_max_positions_no_action
    (signal : SignalSnapshot) (activePositionCount maxPositions : ℕ)
    (priceCeiling sellThreshold buyThreshold : ℚ)
    (shortEnabled longEnabled : Bool)
    (hfull : maxPositions ≤ activePositionCount) :
    evaluateEntry signal activePositionCount maxPositions priceCeiling
        sellThreshold buyThreshold shortEnabled longEnabled =
      EntryDecision.NoAction := by
  unfold evaluateEntry openPositionGuard
  simp only [if_pos hfull, ite_self]

/-- C3 witness: five active positions against a cap of one. -/
theorem C3_witness :
    evaluateEntry { rsi := 50, lastPrice := 1/2 } 5 1 1 80 10 true true =
      EntryDecision.NoAction :=
  C3_max_positions_no_action { rsi := 50, lastPrice := 1/2 } 5 1 1 80 10
    true true (by norm_num)

/-- C4: for a signal with `0 < rsi < buyThreshold`,
`lastPrice < priceCeiling`, `longEnabled` true,
`activePositionCount < maxPositions`, and the short rule not satisfied,
the entry evaluation returns `OpenLong`. -/
theorem C4_oversold_opens_long
    (signal : SignalSnapshot) (activePositionCount maxPositions : ℕ)
    (priceCeiling sellThreshold buyThreshold : ℚ) (shortEnabled : Bool)
    (hpos : 0 < signal.rsi) (hlt : signal.rsi < buyThreshold)
    (hprice : signal.lastPrice < priceCeiling)
    (hcount : activePositionCount < maxPositions)
    (hshort : ¬ (sellThreshold ≤ signal.rsi ∧ TESTING_MODE = false ∧
      signal.lastPrice < priceCeiling ∧ shortEnabled = true)) :
    evaluateEntry signal activePositionCount maxPositions priceCeiling
        sellThreshold buyThreshold shortEnabled true = EntryDecision.OpenLong := by
  unfold evaluateEntry openPositionGuard
  rw [if_neg hshort, if_pos ⟨le_of_lt hlt, hpos, rfl, hprice, rfl⟩,
    if_neg (Nat.not_le.mpr hcount)]

/-- C4 witness: `rsi = 5` inside `(0, 10)`, price below the ceiling. -/
theorem C4_witness :
    evaluateEntry { rsi := 5, lastPrice := 1/2 } 0 1 1 80 10 true true =
      EntryDecision.OpenLong :=
  C4_oversold_opens_long { rsi := 5, lastPrice := 1/2 } 0 1 1 80 10 true
    (by norm_num) (by norm_num) (by norm_num) (by norm_num)
    (by norm_num [TESTING_MODE])

/-- C5: for a signal with `rsi >= sellThreshold` and
`lastPrice >= priceCeiling`, the entry evaluation returns `NoAction`:
the price ceiling dominates the RSI signal. -/
theorem C5_price_ceiling_no_action
    (signal : SignalSnapshot) (activePositionCount maxPositions : ℕ)
    (priceCeiling sellThreshold buyThreshold : ℚ)
    (shortEnabled longEnabled : Bool)
    (_hrsi : sellThreshold ≤ signal.rsi)
    (hprice : priceCeiling ≤ signal.lastPrice) :
    evaluateEntry signal activePositionCount maxPositions priceCeiling
        sellThreshold buyThreshold shortEnabled longEnabled =
      EntryDecision.NoAction := by
  have hnot : ¬ signal.lastPrice < priceCeiling := not_lt.mpr hprice
  unfold evaluateEntry
  rw [if_neg (fun hc => hnot hc.2.2.1), if_neg (fun hc => hnot hc.2.2.2.1)]

/-- C5 witness: `rsi = 85` at a price of `2` against a ceiling of `1`. -/
theorem C5_witness :
    evaluateEntry { rsi := 85, lastPrice := 2 } 0 1 1 80 10 true true =
      EntryDecision.NoAction :=
  C5_price_ceiling_no_action { rsi := 85, lastPrice := 2 } 0 1 1 80 10
    true true (by norm_num) (by norm_num)

/-- C8: for a signal with `rsi <= 0`, the entry evaluation never returns
`OpenLong`, whatever the other inputs: the long rule requires
`rsi > 0`. -/
theorem C8_nonpositive_rsi_never_long
    (signal : SignalSnapshot) (activePositionCount maxPositions : ℕ)
    (priceCeiling sellThreshold buyThreshold : ℚ)
    (shortEnabled longEnabled : Bool)
    (hrsi : signal.rsi ≤ 0) :
    evaluateEntry signal activePositionCount maxPositions priceCeiling
        sellThreshold buyThreshold shortEnabled longEnabled ≠
      EntryDecision.OpenLong := by
  unfold evaluateEntry openPositionGuard
  split
  · split
    · exact fun hc => EntryDecision.noConfusion hc
    · exact fun hc => EntryDecision.noConfusion hc
  · rw [if_neg (fun hc => absurd hc.2.1 (not_lt.mpr hrsi))]
    exact fun hc => EntryDecision.noConfusion hc

/-- C8 witness: `rsi = 0` with every other entry condition favorable. -/
theorem C8_witness :
    evaluateEntry { rsi := 0, lastPrice := 1/2 } 0 1 1 80 10 true true ≠
      EntryDecision.OpenLong :=
  C8_nonpositive_rsi_never_long { rsi := 0, lastPrice := 1/2 } 0 1 1 80 10
    true true (by norm_num)

/-! ## Exit evaluator, funding classifier, close order and margin sizer -/

/-- C2: the exit evaluation returns `ClosePosition` if and only if
`unrealizedProfit >= isolatedMargin * profitRatio`, and `NoAction`
otherwise; in particular `3.5`, margin `100`, ratio `0.03` closes,
`2.9` with the same margin and ratio does not, and with a zero margin
every non-negative unrealized profit (including `0`) closes. -/
theorem C2_exit_rule :
    (∀ (position : PositionSnapshot) (profitRatio : ℚ),
        (evaluateExit position profitRatio = ExitDecision.ClosePosition ↔
          position.isolatedWallet * profitRatio ≤ position.unRealizedProfit) ∧
        (evaluateExit position profitRatio = ExitDecision.NoAction ↔
          position.unRealizedProfit < position.isolatedWallet * profitRatio)) ∧
    evaluateExit { unRealizedProfit := 7/2, isolatedWallet := 100 } (3/100) =
      ExitDecision.ClosePosition ∧
    evaluateExit { unRealizedProfit := 29/10, isolatedWallet := 100 } (3/100) =
      ExitDecision.NoAction ∧
    ∀ (u r : ℚ), 0 ≤ u →
      evaluateExit { unRealizedProfit := u, isolatedWallet := 0 } r =
        ExitDecision.ClosePosition := by
  refine ⟨fun position profitRatio => ?_, by norm_num [evaluateExit],
    by norm_num [evaluateExit], fun u r hu => ?_⟩
  · rcases position with ⟨u, m⟩
    rw [evaluateExit_mk]
    rcases le_or_lt (m * profitRatio) u with h | h
    · rw [if_pos h]
      exact ⟨⟨fun _ => h, fun _ => rfl⟩,
        ⟨fun hc => absurd hc (fun hc => ExitDecision.noConfusion hc),
         fun hlt => absurd h (not_le.mpr hlt)⟩⟩
    · rw [if_neg (not_le.mpr h)]
      exact ⟨⟨fun hc => absurd hc (fun hc => ExitDecision.noConfusion hc),
        fun hle => absurd hle (not_le.mpr h)⟩, ⟨fun _ => h, fun _ => rfl⟩⟩
  · have h0 : (0:ℚ) * r ≤ u := by rw [zero_mul]; exact hu
    rw [evaluateExit_mk, if_pos h0]

/-- C2 witness: a cross-margin position (`isolatedWallet = 0`) with an
unrealized profit of exactly `0` closes. -/
theorem C2_witness :
    evaluateExit { unRealizedProfit := 0, isolatedWallet := 0 } (3/100) =
      ExitDecision.ClosePosition :=
  C2_exit_rule.2.2.2 0 (3/100) le_rfl

/-- C6: `isFundingFavorable` returns `true` if and only if the side is
`LONG` with a negative funding rate or `SHORT` with a positive one; for
`LONG` at `-0.01` it returns `true`, and at a rate of `0` it returns
`false` for both sides. -/
theorem C6_funding_favorable :
    (∀ (positionSide : PositionSide) (fundingRate : ℚ),
        isFundingFavorable positionSide fundingRate = true ↔
          ((positionSide = PositionSide.LONG ∧ fundingRate < 0) ∨
           (positionSide = PositionSide.SHORT ∧ 0 < fundingRate))) ∧
    isFundingFavorable PositionSide.LONG (-1/100) = true ∧
    isFundingFavorable PositionSide.LONG 0 = false ∧
    isFundingFavorable PositionSide.SHORT 0 = false := by
  refine ⟨fun positionSide fundingRate => ?_,
    by norm_num [isFundingFavorable], by norm_num [isFundingFavorable],
    by norm_num [isFundingFavorable]⟩
  simp [isFundingFavorable]

/-- C6 witness: a `LONG` position at a funding rate of `-0.01` is
classified as favorable. -/
theorem C6_witness : isFundingFavorable PositionSide.LONG (-1/100) = true :=
  C6_funding_favorable.2.1

/-- C7: the exit evaluation is monotonic in the unrealized profit: with
the isolated margin and the profit ratio held fixed, raising the profit
keeps a `ClosePosition` decision. -/
theorem C7_exit_monotonic (isolatedWallet profitRatio p1 p2 : ℚ)
    (hle : p1 ≤ p2)
    (hclose : evaluateExit
        { unRealizedProfit := p1, isolatedWallet := isolatedWallet }
        profitRatio = ExitDecision.ClosePosition) :
    evaluateExit { unRealizedProfit := p2, isolatedWallet := isolatedWallet }
        profitRatio = ExitDecision.ClosePosition := by
  rw [evaluateExit_mk] at hclose ⊢
  by_cases h : isolatedWallet * profitRatio ≤ p1
  · exact if_pos (h.trans hle)
  · rw [if_neg h] at hclose
    exact absurd hclose (fun hc => ExitDecision.noConfusion hc)

/-- C7 witness: profit raised from `3.5` to `4` at margin `100` and
ratio `0.03` keeps the close decision. -/
theorem C7_witness :
    evaluateExit { unRealizedProfit := 4, isolatedWallet := 100 } (3/100) =
      ExitDecision.ClosePosition :=
  C7_exit_monotonic 100 (3/100) (7/2) 4 (by norm_num)
    (by norm_num [evaluateExit])

/-- C9: the margin top-up sizing of `addMarginToPosition` proposes
exactly `isolatedMargin * supportRatio`, and every balance strictly
below that product is rejected with an error rather than a smaller
proposal. -/
theorem C9_margin_topup (isolatedWallet usdtBalance supportRatio : ℚ) :
    (usdtBalance < isolatedWallet * supportRatio →
      ∃ msg, addMarginToPosition isolatedWallet usdtBalance supportRatio =
        Except.error msg) ∧
    (isolatedWallet ≠ 0 → isolatedWallet * supportRatio ≤ usdtBalance →
      addMarginToPosition isolatedWallet usdtBalance supportRatio =
        Except.ok (isolatedWallet * supportRatio)) := by
  constructor
  · intro hlt
    rw [addMarginToPosition_def]
    by_cases h0 : isolatedWallet = 0
    · rw [if_pos h0]
      exact ⟨_, rfl⟩
    · rw [if_neg h0, if_pos hlt]
      exact ⟨_, rfl⟩
  · intro h0 hge
    rw [addMarginToPosition_def, if_neg h0, if_neg (not_lt.mpr hge)]

/-- C9 witness: margin `100` at ratio `0.10` proposes `10` when the
balance covers it. -/
theorem C9_witness :
    addMarginToPosition 100 100 (1/10) = Except.ok (100 * (1/10)) :=
  (C9_margin_topup 100 100 (1/10)).2 (by norm_num) (by norm_num)

/-- C10: `closePosition` errors, placing no order, whenever `symbol`,
`positionAmt` or `positionSide` is absent or the position quantity is
zero; otherwise it submits a market order on the side opposite to the
position (`SELL` for `LONG`, `BUY` for `SHORT`) for the absolute value
of `positionAmt`. -/
theorem C10_closePosition (position : RawPosition) :
    ((position.symbol = none ∨ position.positionAmt = none ∨
        position.positionSide = none ∨ position.positionAmt = some 0) →
      ∃ msg, closePosition position = Except.error msg) ∧
    (∀ (symbol : String) (amt : ℚ) (side : PositionSide),
      position.symbol = some symbol → position.positionAmt = some amt →
      position.positionSide = some side → amt ≠ 0 →
      closePosition position =
        Except.ok { symbol := symbol,
                    side := if side = PositionSide.LONG then OrderSide.SELL
                            else OrderSide.BUY,
                    quantity := |amt|, positionSide := side }) := by
  constructor
  · intro hmiss
    rcases position with ⟨os, oa, osd⟩
    cases os with
    | none => exact ⟨_, rfl⟩
    | some s =>
      cases oa with
      | none => exact ⟨_, rfl⟩
      | some a =>
        cases osd with
        | none => exact ⟨_, rfl⟩
        | some sd =>
          rcases hmiss with h | h | h | h
          · exact Option.noConfusion h
          · exact Option.noConfusion h
          · exact Option.noConfusion h
          · obtain rfl := Option.some.inj h
            exact ⟨_, by rw [closePosition_some, if_pos abs_zero]⟩
  · intro symbol amt side hs ha hsd hne
    rcases position with ⟨os, oa, osd⟩
    obtain rfl : os = some symbol := hs
    obtain rfl : oa = some amt := ha
    obtain rfl : osd = some side := hsd
    rw [closePosition_some, if_neg (fun hc => hne (abs_eq_zero.mp hc))]

/-- C10 witness: a `SHORT` position of `-2` contracts closes with a
market `BUY` for `2`. -/
theorem C10_witness :
    closePosition { symbol := some "BTCUSDT", positionAmt := some (-2),
                    positionSide := some PositionSide.SHORT } =
      Except.ok { symbol := "BTCUSDT",
                  side := if PositionSide.SHORT = PositionSide.LONG then
                            OrderSide.SELL
                          else OrderSide.BUY,
                  quantity := |(-2 : ℚ)|,
                  positionSide := PositionSide.SHORT } :=
  (C10_closePosition
      { symbol := some "BTCUSDT", positionAmt := some (-2),
        positionSide := some PositionSide.SHORT }).2
    "BTCUSDT" (-2) PositionSide.SHORT rfl rfl rfl (by norm_num)

end BinanceFutures
